import Mathlib

/-!
Verification of the arithmetic-quiz game core (question generator,
scoring engine, game lifecycle) of `app.py`, as a shallow embedding.

Modelling conventions:
* `random.randint(lo, hi)` (inclusive bounds) is embedded as
  `randint lo hi s = lo + s % (hi - lo + 1)` over an explicit seed `s`:
  every value of `[lo, hi]` is reachable by some seed, and for `lo ≤ hi`
  every seed lands in `[lo, hi]`.  `random.choice(xs)` is likewise
  `choice xs s = xs[s % len xs]`.
* Wall-clock instants (`datetime.now()`, stored ISO timestamps) are
  rationals measured in seconds; `(a - b).total_seconds()` becomes plain
  subtraction in `ℚ`.  Python's float `/` on ints becomes `ℚ` division.
* Python `int(...)` truncation toward zero on a rational is `pyInt`;
  Python's `round(x, 1)` (round-half-to-even) is `pyRound1`.
* Fallible paths return `Except GameError _`.  A Python `KeyError` raised
  by `DIFFICULTY_SETTINGS[difficulty]` aborts the request before a
  response (and hence a session cookie) is produced, so it is modelled as
  `Except.error GameError.invalidDifficulty` with the session unchanged.
* The Flask `session` dict is the structure `GameSession`; handlers take
  the session and return `(Except GameError result) × GameSession`, the
  second component being the session as it stands after the request.
-/

/-- The four operator symbols `'+'`, `'-'`, `'*'`, `'/'` appearing in the
`operations` lists of `DIFFICULTY_SETTINGS`. -/
inductive Op where
  | add
  | sub
  | mul
  | div
  deriving DecidableEq, Repr

/-- One entry of the `DIFFICULTY_SETTINGS` dict in `app.py`
(`max_number`, `operations`, `time_limit`). -/
structure DifficultySetting where
  max_number : Nat
  operations : List Op
  time_limit : Nat
  deriving DecidableEq, Repr

/-- The `DIFFICULTY_SETTINGS` dict of `app.py` (lines 38-54), as a partial
map from the difficulty key; `none` models a `KeyError` on lookup. -/
def DIFFICULTY_SETTINGS (difficulty : String) : Option DifficultySetting :=
  if difficulty = "easy" then
    some { max_number := 10, operations := [Op.add, Op.sub], time_limit := 30 }
  else if difficulty = "medium" then
    some { max_number := 50, operations := [Op.add, Op.sub, Op.mul], time_limit := 20 }
  else if difficulty = "hard" then
    some { max_number := 100, operations := [Op.add, Op.sub, Op.mul, Op.div], time_limit := 15 }
  else
    none

/-- `random.randint(lo, hi)` with an explicit seed: inclusive on both
ends.  (Python raises `ValueError` when `lo > hi`; all call sites in
`app.py` reached at the three configured tiers satisfy `lo ≤ hi`.) -/
def randint (lo hi s : Nat) : Nat :=
  lo + s % (hi - lo + 1)

/-- `random.choice(xs)` with an explicit seed.  All lists it is applied
to in `app.py` are the non-empty `operations` lists, so the `Op.add`
default of `getD` is never consulted there. -/
def choice (xs : List Op) (s : Nat) : Op :=
  xs.getD (s % xs.length) Op.add

/-- The value `generate_question` returns (the dict
`{'question', 'answer', 'time_limit'}`), extended with the branch-local
variables `num1`, `num2` and the chosen operation so that properties of
the operands can be stated.  `answer` is a Python int, so `Int`. -/
structure GenQuestion where
  op : Op
  num1 : Nat
  num2 : Nat
  question : String
  answer : Int
  time_limit : Nat
  deriving DecidableEq, Repr

/-- The per-operation body of `generate_question` (`app.py` lines 65-94):
given the tier settings and the chosen operation, draw the operands and
build the question record.  Seeds `s1`, `s2` feed the two `randint`
calls of the taken branch in order. -/
def mkQuestion (settings : DifficultySetting) (op : Op) (s1 s2 : Nat) : GenQuestion :=
  match op with
  | Op.add =>
      let num1 := randint 1 settings.max_number s1
      let num2 := randint 1 settings.max_number s2
      { op := Op.add, num1 := num1, num2 := num2,
        question := s!"{num1} + {num2}",
        answer := (num1 : Int) + (num2 : Int),
        time_limit := settings.time_limit }
  | Op.sub =>
      let num1 := randint 1 settings.max_number s1
      let num2 := randint 1 num1 s2
      { op := Op.sub, num1 := num1, num2 := num2,
        question := s!"{num1} - {num2}",
        answer := (num1 : Int) - (num2 : Int),
        time_limit := settings.time_limit }
  | Op.mul =>
      let num1 := randint 1 (min (settings.max_number / 5) 12) s1
      let num2 := randint 1 (min (settings.max_number / 5) 12) s2
      { op := Op.mul, num1 := num1, num2 := num2,
        question := s!"{num1} × {num2}",
        answer := (num1 : Int) * (num2 : Int),
        time_limit := settings.time_limit }
  | Op.div =>
      let answer := randint 1 (min (settings.max_number / 5) 12) s1
      let num2 := randint 2 (min (settings.max_number / 10) 10) s2
      let num1 := answer * num2
      { op := Op.div, num1 := num1, num2 := num2,
        question := s!"{num1} ÷ {num2}",
        answer := (answer : Int),
        time_limit := settings.time_limit }

/-- Error kinds: `invalidDifficulty` is the `KeyError` raised by
`DIFFICULTY_SETTINGS[difficulty]`; the other two are the structured
`{'success': False, 'error': ...}` responses of `submit_answer` and
`end_game`. -/
inductive GameError where
  | invalidDifficulty
  | noActiveGame
  | noCurrentQuestion
  deriving DecidableEq, Repr

/-- `generate_question(difficulty)` of `app.py` (lines 56-94): look up the
tier (a failing lookup raises, modelled as `invalidDifficulty`), pick an
operation with seed `c`, then build the question with seeds `s1`, `s2`. -/
def generate_question (difficulty : String) (c s1 s2 : Nat) :
    Except GameError GenQuestion :=
  match DIFFICULTY_SETTINGS difficulty with
  | none => Except.error GameError.invalidDifficulty
  | some settings => Except.ok (mkQuestion settings (choice settings.operations c) s1 s2)

/- ### Basic facts about the random draws -/

theorem randint_lo_le (lo hi s : Nat) : lo ≤ randint lo hi s := by
  simp [randint]

theorem randint_le_hi (lo hi s : Nat) (h : lo ≤ hi) : randint lo hi s ≤ hi := by
  have hmod : s % (hi - lo + 1) < hi - lo + 1 := Nat.mod_lt _ (Nat.succ_pos _)
  simp only [randint]
  omega

theorem choice_mem (xs : List Op) (s : Nat) (h : xs ≠ []) : choice xs s ∈ xs := by
  have hlen : 0 < xs.length := List.length_pos.mpr h
  have hlt : s % xs.length < xs.length := Nat.mod_lt _ hlen
  simp only [choice, List.getD_eq_getElem?_getD]
  rw [List.getElem?_eq_getElem hlt]
  exact List.getElem_mem _

/- ### Session state and the request handlers -/

/-- The per-player Flask `session` keys used by the game handlers.
Timestamps are rational seconds. -/
structure GameSession where
  game_active : Bool
  difficulty : String
  score : Int
  total_questions : Nat
  correct_answers : Nat
  start_time : ℚ
  current_question : Option GenQuestion
  question_start_time : ℚ
  deriving DecidableEq, Repr

/-- The JSON value found at `data.get('answer')` in `submit_answer`:
an integer, a string, or absent/null.  (JSON numbers are modelled as
integers; no claim depends on fractional numeric payloads.) -/
inductive RawAnswer where
  | jint (n : Int)
  | jstr (s : String)
  | jnull
  deriving DecidableEq, Repr

/-- Accumulator pass over the digits of a decimal literal: `none` as
soon as a non-digit appears. -/
def digitsAcc : List Char → Nat → Option Nat
  | [], acc => some acc
  | ch :: rest, acc =>
      if ch.isDigit then digitsAcc rest (10 * acc + (ch.toNat - '0'.toNat))
      else none

/-- Python `int(s)` on a string: an optionally signed non-empty run of
decimal digits, `none` (a `ValueError` in Python) otherwise.  Python's
tolerance for surrounding whitespace and interior underscores is not
modelled; the claims depend only on success returning the denoted
integer and on failure being detected. -/
def pyParseInt (s : String) : Option Int :=
  match s.toList with
  | [] => none
  | '-' :: rest =>
      match rest with
      | [] => none
      | _ => (digitsAcc rest 0).map (fun n => -(n : Int))
  | '+' :: rest =>
      match rest with
      | [] => none
      | _ => (digitsAcc rest 0).map (fun n => (n : Int))
  | cs => (digitsAcc cs 0).map (fun n => (n : Int))

/-- `int(user_answer)` guarded by `except (ValueError, TypeError)`
(`app.py` lines 139-142): the parsed integer, or `none` for the Python
`None` sentinel. -/
def parseAnswer : RawAnswer → Option Int
  | RawAnswer.jint n => some n
  | RawAnswer.jstr s => pyParseInt s
  | RawAnswer.jnull => none

/-- The comparison `user_answer == correct_answer` where `user_answer`
is `None` or an int: `None` equals no integer. -/
def answerMatches : Option Int → Int → Bool
  | some n, c => n == c
  | none, _ => false

/-- Python `int(q)` on a rational: truncation toward zero. -/
def pyInt (q : ℚ) : Int :=
  if 0 ≤ q then ⌊q⌋ else -⌊-q⌋

/-- Python `round(q)` to the nearest integer, halves to even. -/
def pyRound (q : ℚ) : Int :=
  if q - ⌊q⌋ < 1 / 2 then ⌊q⌋
  else if 1 / 2 < q - ⌊q⌋ then ⌊q⌋ + 1
  else if ⌊q⌋ % 2 = 0 then ⌊q⌋ else ⌊q⌋ + 1

/-- Python `round(q, 1)`: one decimal place. -/
def pyRound1 (q : ℚ) : ℚ :=
  (pyRound (q * 10) : ℚ) / 10

/-- The success payload of the `submit_answer` response
(`app.py` lines 167-176). -/
structure SubmitResult where
  is_correct : Bool
  correct_answer : Int
  score : Int
  next_question : String
  time_limit : Nat
  total_questions : Nat
  correct_answers : Nat
  deriving DecidableEq, Repr

/-- The `submit_answer` handler (`app.py` lines 126-176).  `now` is the
submission instant (`datetime.now()` at line 155), `now2` the slightly
later instant stored as the next question's start time (line 165);
`c s1 s2` seed the generation of the next question.  On the two guarded
failures, and on the (unreachable-in-lifecycle) `KeyError` from
`generate_question`, the session cookie is not updated. -/
def submit_answer (sess : GameSession) (raw : RawAnswer) (now now2 : ℚ)
    (c s1 s2 : Nat) : Except GameError SubmitResult × GameSession :=
  if sess.game_active = false then
    (Except.error GameError.noActiveGame, sess)
  else
    match sess.current_question with
    | none => (Except.error GameError.noCurrentQuestion, sess)
    | some current_question =>
      let user_answer := parseAnswer raw
      let correct_answer := current_question.answer
      let is_correct := answerMatches user_answer correct_answer
      let total_questions := sess.total_questions + 1
      let correct_answers :=
        if is_correct then sess.correct_answers + 1 else sess.correct_answers
      let score1 := if is_correct then sess.score + 10 else sess.score
      let time_taken := now - sess.question_start_time
      let score2 :=
        if is_correct ∧ time_taken < (current_question.time_limit : ℚ) / 2 then
          score1 + max 1 (pyInt (10 - time_taken))
        else score1
      match generate_question sess.difficulty c s1 s2 with
      | Except.error e => (Except.error e, sess)
      | Except.ok next_question =>
        (Except.ok
           { is_correct := is_correct, correct_answer := correct_answer,
             score := score2, next_question := next_question.question,
             time_limit := next_question.time_limit,
             total_questions := total_questions,
             correct_answers := correct_answers },
         { sess with
             score := score2, total_questions := total_questions,
             correct_answers := correct_answers,
             current_question := some next_question,
             question_start_time := now2 })

/-- The success payload of the `start_game` response
(`app.py` lines 120-124). -/
structure StartResponse where
  question : String
  time_limit : Nat
  deriving DecidableEq, Repr

/-- The `start_game` handler (`app.py` lines 101-124).  `payload` is the
value of the `difficulty` field of the request JSON, `none` when the
field is absent (`data.get('difficulty', 'easy')`); `now` stands for the
two `datetime.now()` calls of lines 113 and 118. -/
def start_game (sess : GameSession) (payload : Option String) (now : ℚ)
    (c s1 s2 : Nat) : Except GameError StartResponse × GameSession :=
  let difficulty := payload.getD "easy"
  match generate_question difficulty c s1 s2 with
  | Except.error e => (Except.error e, sess)
  | Except.ok question_data =>
    (Except.ok { question := question_data.question,
                 time_limit := question_data.time_limit },
     { game_active := true, difficulty := difficulty, score := 0,
       total_questions := 0, correct_answers := 0, start_time := now,
       current_question := some question_data, question_start_time := now })

/-- The row handed to the persistence collaborator by `end_game`
(`models.GameResult`, minus the DB-generated `id` and `created_at`). -/
structure GameResult where
  difficulty : String
  score : Int
  total_questions : Nat
  correct_answers : Nat
  accuracy : ℚ
  duration : ℚ
  deriving DecidableEq, Repr

/-- The `final_stats` payload of the `end_game` response
(`app.py` lines 200-207). -/
structure FinalStats where
  score : Int
  total_questions : Nat
  correct_answers : Nat
  accuracy : ℚ
  duration : ℚ
  difficulty : String
  deriving DecidableEq, Repr

/-- The `end_game` handler (`app.py` lines 178-215): guard on
`game_active`, compute duration and accuracy, build the persisted
`GameResult` and the `final_stats` payload, then flip `game_active` to
`False` leaving every other session key in place. -/
def end_game (sess : GameSession) (now : ℚ) :
    Except GameError (FinalStats × GameResult) × GameSession :=
  if sess.game_active = false then
    (Except.error GameError.noActiveGame, sess)
  else
    let game_duration := now - sess.start_time
    let accuracy : ℚ :=
      if sess.total_questions > 0 then
        (sess.correct_answers : ℚ) / (sess.total_questions : ℚ) * 100
      else 0
    let game_result : GameResult :=
      { difficulty := sess.difficulty, score := sess.score,
        total_questions := sess.total_questions,
        correct_answers := sess.correct_answers,
        accuracy := accuracy, duration := game_duration }
    let final_stats : FinalStats :=
      { score := sess.score, total_questions := sess.total_questions,
        correct_answers := sess.correct_answers,
        accuracy := pyRound1 accuracy, duration := pyRound1 game_duration,
        difficulty := sess.difficulty }
    (Except.ok (final_stats, game_result), { sess with game_active := false })

/- ### Facts about `mkQuestion` -/

theorem mkQuestion_op (st : DifficultySetting) (op : Op) (s1 s2 : Nat) :
    (mkQuestion st op s1 s2).op = op := by
  cases op <;> rfl

theorem mkQuestion_answer_nonneg (st : DifficultySetting) (op : Op) (s1 s2 : Nat) :
    0 ≤ (mkQuestion st op s1 s2).answer := by
  cases op with
  | add => simp only [mkQuestion]; positivity
  | sub =>
      have h1 : 1 ≤ randint 1 st.max_number s1 := randint_lo_le 1 st.max_number s1
      have h2 : randint 1 (randint 1 st.max_number s1) s2 ≤ randint 1 st.max_number s1 :=
        randint_le_hi 1 _ s2 h1
      simp only [mkQuestion]
      omega
  | mul => simp only [mkQuestion]; positivity
  | div => simp only [mkQuestion]; positivity

theorem mkQuestion_sub_le (st : DifficultySetting) (op : Op) (s1 s2 : Nat)
    (h : (mkQuestion st op s1 s2).op = Op.sub) :
    (mkQuestion st op s1 s2).num2 ≤ (mkQuestion st op s1 s2).num1 := by
  cases op with
  | sub =>
      have h1 : 1 ≤ randint 1 st.max_number s1 := randint_lo_le 1 st.max_number s1
      have h2 : randint 1 (randint 1 st.max_number s1) s2 ≤ randint 1 st.max_number s1 :=
        randint_le_hi 1 _ s2 h1
      simpa only [mkQuestion] using h2
  | add => simp [mkQuestion_op] at h
  | mul => simp [mkQuestion_op] at h
  | div => simp [mkQuestion_op] at h

/-- C2: for every valid tier and every operation the generator can choose,
the generated question's answer is a non-negative integer, and for every
generated subtraction the second operand is at most the first operand. -/
theorem generated_answer_nonneg (d : String) (c s1 s2 : Nat) (q : GenQuestion)
    (h : generate_question d c s1 s2 = Except.ok q) :
    0 ≤ q.answer ∧ (q.op = Op.sub → q.num2 ≤ q.num1) := by
  unfold generate_question at h
  cases hst : DIFFICULTY_SETTINGS d with
  | none => rw [hst] at h; cases h
  | some st =>
      rw [hst] at h
      injection h with h
      subst h
      exact ⟨mkQuestion_answer_nonneg st _ s1 s2,
             fun hop => mkQuestion_sub_le st _ s1 s2 hop⟩

/-- C2 witness: `generate_question "easy" 1 5 3` yields the subtraction
`6 - 4` with answer `2 ≥ 0` and `4 ≤ 6`. -/
theorem generated_answer_nonneg_witness :
    0 ≤ (⟨Op.sub, 6, 4, "6 - 4", 2, 30⟩ : GenQuestion).answer ∧
      ((⟨Op.sub, 6, 4, "6 - 4", 2, 30⟩ : GenQuestion).op = Op.sub →
        (⟨Op.sub, 6, 4, "6 - 4", 2, 30⟩ : GenQuestion).num2 ≤
          (⟨Op.sub, 6, 4, "6 - 4", 2, 30⟩ : GenQuestion).num1) :=
  generated_answer_nonneg "easy" 1 5 3 ⟨Op.sub, 6, 4, "6 - 4", 2, 30⟩ (by rfl)

/-- C1: every generated division question occurs at the hard tier only;
its dividend equals the answer times the divisor exactly, the answer lies
in `[1, min(maxNumber/5, 12)]` and the divisor in
`[2, min(maxNumber/10, 10)]` (with the hard tier's `maxNumber = 100`);
the answer is the pre-chosen value, so no truncating division occurs. -/
theorem generated_division_exact (d : String) (c s1 s2 : Nat) (q : GenQuestion)
    (h : generate_question d c s1 s2 = Except.ok q) (hop : q.op = Op.div) :
    d = "hard" ∧ (q.num1 : Int) = q.answer * (q.num2 : Int) ∧
      1 ≤ q.answer ∧ q.answer ≤ ((min (100 / 5) 12 : Nat) : Int) ∧
      2 ≤ q.num2 ∧ q.num2 ≤ min (100 / 10) 10 := by
  unfold generate_question at h
  cases hst : DIFFICULTY_SETTINGS d with
  | none => rw [hst] at h; cases h
  | some st =>
      rw [hst] at h
      injection h with h
      subst h
      rw [mkQuestion_op] at hop
      unfold DIFFICULTY_SETTINGS at hst
      split_ifs at hst with h1 h2 h3
      · -- easy tier: '/' is not among its operations
        injection hst with hst
        subst hst
        have hmem := choice_mem [Op.add, Op.sub] c (by simp)
        rw [hop] at hmem
        simp at hmem
      · -- medium tier: '/' is not among its operations
        injection hst with hst
        subst hst
        have hmem := choice_mem [Op.add, Op.sub, Op.mul] c (by simp)
        rw [hop] at hmem
        simp at hmem
      · -- hard tier
        injection hst with hst
        subst hst
        rw [hop]
        refine ⟨h3, ?_⟩
        have ha1 : 1 ≤ randint 1 12 s1 := randint_lo_le _ _ _
        have ha2 : randint 1 12 s1 ≤ 12 := randint_le_hi _ _ _ (by norm_num)
        have hb1 : 2 ≤ randint 2 10 s2 := randint_lo_le _ _ _
        have hb2 : randint 2 10 s2 ≤ 10 := randint_le_hi _ _ _ (by norm_num)
        simp only [mkQuestion, show min (100 / 5) 12 = 12 from rfl,
          show min (100 / 10) 10 = 10 from rfl]
        refine ⟨?_, ?_, ?_, ?_, ?_⟩ <;> push_cast <;> omega

/-- C1 witness: `generate_question "hard" 3 0 0` is the division
`2 ÷ 2` with answer `1` and divisor `2`. -/
theorem generated_division_exact_witness :
    "hard" = "hard" ∧
      ((⟨Op.div, 2, 2, "2 ÷ 2", 1, 15⟩ : GenQuestion).num1 : Int) =
        (⟨Op.div, 2, 2, "2 ÷ 2", 1, 15⟩ : GenQuestion).answer *
          ((⟨Op.div, 2, 2, "2 ÷ 2", 1, 15⟩ : GenQuestion).num2 : Int) ∧
      1 ≤ (⟨Op.div, 2, 2, "2 ÷ 2", 1, 15⟩ : GenQuestion).answer ∧
      (⟨Op.div, 2, 2, "2 ÷ 2", 1, 15⟩ : GenQuestion).answer ≤
        ((min (100 / 5) 12 : Nat) : Int) ∧
      2 ≤ (⟨Op.div, 2, 2, "2 ÷ 2", 1, 15⟩ : GenQuestion).num2 ∧
      (⟨Op.div, 2, 2, "2 ÷ 2", 1, 15⟩ : GenQuestion).num2 ≤ min (100 / 10) 10 :=
  generated_division_exact "hard" 3 0 0 ⟨Op.div, 2, 2, "2 ÷ 2", 1, 15⟩ (by rfl) (by rfl)

/- ### Operand bounds (C3) -/

theorem mkQuestion_add_bounds (st : DifficultySetting) (s1 s2 : Nat)
    (h : 1 ≤ st.max_number) :
    (mkQuestion st Op.add s1 s2).num1 ≤ st.max_number ∧
      (mkQuestion st Op.add s1 s2).num2 ≤ st.max_number := by
  simp only [mkQuestion]
  exact ⟨randint_le_hi _ _ _ h, randint_le_hi _ _ _ h⟩

theorem mkQuestion_sub_bounds (st : DifficultySetting) (s1 s2 : Nat)
    (h : 1 ≤ st.max_number) :
    (mkQuestion st Op.sub s1 s2).num1 ≤ st.max_number ∧
      (mkQuestion st Op.sub s1 s2).num2 ≤ st.max_number := by
  have h1 : randint 1 st.max_number s1 ≤ st.max_number := randint_le_hi _ _ _ h
  have h2 : randint 1 (randint 1 st.max_number s1) s2 ≤ randint 1 st.max_number s1 :=
    randint_le_hi _ _ _ (randint_lo_le _ _ _)
  simp only [mkQuestion]
  omega

theorem mkQuestion_mul_bounds (st : DifficultySetting) (s1 s2 : Nat)
    (h : 5 ≤ st.max_number) :
    (mkQuestion st Op.mul s1 s2).num1 ≤ st.max_number ∧
      (mkQuestion st Op.mul s1 s2).num2 ≤ st.max_number := by
  have hhi : 1 ≤ min (st.max_number / 5) 12 := by
    have : 1 ≤ st.max_number / 5 := Nat.one_le_div_iff (by norm_num) |>.mpr h
    omega
  have hm : min (st.max_number / 5) 12 ≤ st.max_number := by
    have : st.max_number / 5 ≤ st.max_number := Nat.div_le_self _ _
    omega
  have h1 : randint 1 (min (st.max_number / 5) 12) s1 ≤ min (st.max_number / 5) 12 :=
    randint_le_hi _ _ _ hhi
  have h2 : randint 1 (min (st.max_number / 5) 12) s2 ≤ min (st.max_number / 5) 12 :=
    randint_le_hi _ _ _ hhi
  simp only [mkQuestion]
  omega

theorem mkQuestion_div_bounds (st : DifficultySetting) (s1 s2 : Nat)
    (h : 20 ≤ st.max_number) :
    (mkQuestion st Op.div s1 s2).num2 ≤ st.max_number ∧
      (mkQuestion st Op.div s1 s2).num1 ≤
        min (st.max_number / 5) 12 * min (st.max_number / 10) 10 := by
  have hhi2 : 2 ≤ min (st.max_number / 10) 10 := by
    have : 2 ≤ st.max_number / 10 := by omega
    omega
  have hb : randint 2 (min (st.max_number / 10) 10) s2 ≤ min (st.max_number / 10) 10 :=
    randint_le_hi _ _ _ hhi2
  have hbmax : min (st.max_number / 10) 10 ≤ st.max_number := by
    have : st.max_number / 10 ≤ st.max_number := Nat.div_le_self _ _
    omega
  have hhi1 : 1 ≤ min (st.max_number / 5) 12 := by
    have : 4 ≤ st.max_number / 5 := by omega
    omega
  have ha : randint 1 (min (st.max_number / 5) 12) s1 ≤ min (st.max_number / 5) 12 :=
    randint_le_hi _ _ _ hhi1
  refine ⟨by simp only [mkQuestion]; omega, ?_⟩
  simp only [mkQuestion]
  exact Nat.mul_le_mul ha hb

/-- C3 counterexample: at the hard tier (`maxNumber = 100`) the seeds
`c = 3, s1 = 11, s2 = 8` make `generate_question` draw answer `12` and
divisor `10`, so the question is `120 ÷ 10` and the dividend operand
`120` exceeds the tier's `maxNumber = 100`. -/
theorem generated_operand_bounds_cex :
    DIFFICULTY_SETTINGS "hard" =
      some { max_number := 100, operations := [Op.add, Op.sub, Op.mul, Op.div],
             time_limit := 15 } ∧
    generate_question "hard" 3 11 8 =
      Except.ok { op := Op.div, num1 := 120, num2 := 10,
                  question := "120 ÷ 10", answer := 12, time_limit := 15 } ∧
    ¬ (120 ≤ 100) :=
  ⟨rfl, rfl, by decide⟩

/-- C3 amended: for every valid tier, every operand of a generated
non-division question, and the divisor of a division question, is at most
the tier's `maxNumber`; the dividend of a division question is instead
bounded by `min(maxNumber/5, 12) * min(maxNumber/10, 10)` (which is `120`
at the hard tier, exceeding its `maxNumber = 100`). -/
theorem generated_operand_bounds (d : String) (c s1 s2 : Nat) (q : GenQuestion)
    (st : DifficultySetting) (hst : DIFFICULTY_SETTINGS d = some st)
    (h : generate_question d c s1 s2 = Except.ok q) :
    (q.op ≠ Op.div → q.num1 ≤ st.max_number ∧ q.num2 ≤ st.max_number) ∧
    (q.op = Op.div → q.num2 ≤ st.max_number ∧
        q.num1 ≤ min (st.max_number / 5) 12 * min (st.max_number / 10) 10) := by
  unfold generate_question at h
  rw [hst] at h
  injection h with h
  subst h
  unfold DIFFICULTY_SETTINGS at hst
  split_ifs at hst with h1 h2 h3 <;> injection hst with hst <;> subst hst
  · -- easy
    have hmem := choice_mem [Op.add, Op.sub] c (by simp)
    simp only [List.mem_cons, List.not_mem_nil, or_false] at hmem
    rcases hmem with ho | ho <;> rw [ho]
    · exact ⟨fun _ => mkQuestion_add_bounds _ s1 s2 (by norm_num),
             fun hop => absurd ((mkQuestion_op _ Op.add s1 s2).symm.trans hop) (by decide)⟩
    · exact ⟨fun _ => mkQuestion_sub_bounds _ s1 s2 (by norm_num),
             fun hop => absurd ((mkQuestion_op _ Op.sub s1 s2).symm.trans hop) (by decide)⟩
  · -- medium
    have hmem := choice_mem [Op.add, Op.sub, Op.mul] c (by simp)
    simp only [List.mem_cons, List.not_mem_nil, or_false] at hmem
    rcases hmem with ho | ho | ho <;> rw [ho]
    · exact ⟨fun _ => mkQuestion_add_bounds _ s1 s2 (by norm_num),
             fun hop => absurd ((mkQuestion_op _ Op.add s1 s2).symm.trans hop) (by decide)⟩
    · exact ⟨fun _ => mkQuestion_sub_bounds _ s1 s2 (by norm_num),
             fun hop => absurd ((mkQuestion_op _ Op.sub s1 s2).symm.trans hop) (by decide)⟩
    · exact ⟨fun _ => mkQuestion_mul_bounds _ s1 s2 (by norm_num),
             fun hop => absurd ((mkQuestion_op _ Op.mul s1 s2).symm.trans hop) (by decide)⟩
  · -- hard
    have hmem := choice_mem [Op.add, Op.sub, Op.mul, Op.div] c (by simp)
    simp only [List.mem_cons, List.not_mem_nil, or_false] at hmem
    rcases hmem with ho | ho | ho | ho <;> rw [ho]
    · exact ⟨fun _ => mkQuestion_add_bounds _ s1 s2 (by norm_num),
             fun hop => absurd ((mkQuestion_op _ Op.add s1 s2).symm.trans hop) (by decide)⟩
    · exact ⟨fun _ => mkQuestion_sub_bounds _ s1 s2 (by norm_num),
             fun hop => absurd ((mkQuestion_op _ Op.sub s1 s2).symm.trans hop) (by decide)⟩
    · exact ⟨fun _ => mkQuestion_mul_bounds _ s1 s2 (by norm_num),
             fun hop => absurd ((mkQuestion_op _ Op.mul s1 s2).symm.trans hop) (by decide)⟩
    · exact ⟨fun hop => absurd (mkQuestion_op _ Op.div s1 s2) hop,
             fun _ => mkQuestion_div_bounds _ s1 s2 (by norm_num)⟩

/-- C3 amended, witness: the `120 ÷ 10` question at the hard tier has
divisor `10 ≤ 100` and dividend `120 ≤ 12 * 10`. -/
theorem generated_operand_bounds_witness :
    ((⟨Op.div, 120, 10, "120 ÷ 10", 12, 15⟩ : GenQuestion).op ≠ Op.div →
        (⟨Op.div, 120, 10, "120 ÷ 10", 12, 15⟩ : GenQuestion).num1 ≤
            (⟨100, [Op.add, Op.sub, Op.mul, Op.div], 15⟩ : DifficultySetting).max_number ∧
          (⟨Op.div, 120, 10, "120 ÷ 10", 12, 15⟩ : GenQuestion).num2 ≤
            (⟨100, [Op.add, Op.sub, Op.mul, Op.div], 15⟩ : DifficultySetting).max_number) ∧
    ((⟨Op.div, 120, 10, "120 ÷ 10", 12, 15⟩ : GenQuestion).op = Op.div →
        (⟨Op.div, 120, 10, "120 ÷ 10", 12, 15⟩ : GenQuestion).num2 ≤
            (⟨100, [Op.add, Op.sub, Op.mul, Op.div], 15⟩ : DifficultySetting).max_number ∧
          (⟨Op.div, 120, 10, "120 ÷ 10", 12, 15⟩ : GenQuestion).num1 ≤
            min ((⟨100, [Op.add, Op.sub, Op.mul, Op.div], 15⟩ : DifficultySetting).max_number / 5) 12 *
              min ((⟨100, [Op.add, Op.sub, Op.mul, Op.div], 15⟩ : DifficultySetting).max_number / 10) 10) :=
  generated_operand_bounds "hard" 3 11 8 ⟨Op.div, 120, 10, "120 ÷ 10", 12, 15⟩
    ⟨100, [Op.add, Op.sub, Op.mul, Op.div], 15⟩ (by rfl) (by rfl)

/- ### Scoring engine lemmas -/

/-- Evaluation of `submit_answer` on an active session with a pending
question and a recognized difficulty: the guards pass and the handler
returns the updated stats together with the freshly generated question. -/
theorem submit_answer_active_eq (sess : GameSession) (raw : RawAnswer)
    (now now2 : ℚ) (c s1 s2 : Nat) (q : GenQuestion) (st : DifficultySetting)
    (hact : sess.game_active = true)
    (hq : sess.current_question = some q)
    (hst : DIFFICULTY_SETTINGS sess.difficulty = some st) :
    submit_answer sess raw now now2 c s1 s2 =
      (Except.ok
         { is_correct := answerMatches (parseAnswer raw) q.answer,
           correct_answer := q.answer,
           score :=
             (if answerMatches (parseAnswer raw) q.answer
                 ∧ now - sess.question_start_time < (q.time_limit : ℚ) / 2 then
                (if answerMatches (parseAnswer raw) q.answer then sess.score + 10
                 else sess.score) +
                  max 1 (pyInt (10 - (now - sess.question_start_time)))
              else
                (if answerMatches (parseAnswer raw) q.answer then sess.score + 10
                 else sess.score)),
           next_question := (mkQuestion st (choice st.operations c) s1 s2).question,
           time_limit := (mkQuestion st (choice st.operations c) s1 s2).time_limit,
           total_questions := sess.total_questions + 1,
           correct_answers :=
             (if answerMatches (parseAnswer raw) q.answer then sess.correct_answers + 1
              else sess.correct_answers) },
       { sess with
           score :=
             (if answerMatches (parseAnswer raw) q.answer
                 ∧ now - sess.question_start_time < (q.time_limit : ℚ) / 2 then
                (if answerMatches (parseAnswer raw) q.answer then sess.score + 10
                 else sess.score) +
                  max 1 (pyInt (10 - (now - sess.question_start_time)))
              else
                (if answerMatches (parseAnswer raw) q.answer then sess.score + 10
                 else sess.score)),
           total_questions := sess.total_questions + 1,
           correct_answers :=
             (if answerMatches (parseAnswer raw) q.answer then sess.correct_answers + 1
              else sess.correct_answers),
           current_question := some (mkQuestion st (choice st.operations c) s1 s2),
           question_start_time := now2 }) := by
  unfold submit_answer generate_question
  rw [hq, hst]
  simp [hact]

/-- `max(1, int(x))` with Python truncation equals `max(1, floor(x))`:
the two only differ for negative non-integral `x`, where both sides
are clamped to `1`. -/
theorem max_one_pyInt (x : ℚ) : max 1 (pyInt x) = max 1 ⌊x⌋ := by
  unfold pyInt
  split_ifs with h
  · rfl
  · push_neg at h
    have h1 : ⌊x⌋ ≤ 0 := Int.floor_nonpos h.le
    have h2 : 0 ≤ ⌊-x⌋ := Int.floor_nonneg.mpr (by linarith)
    omega

/-- C4: an answer submission against an active session with a pending
question bumps `totalQuestions` by exactly 1 unconditionally; when the
parsed answer equals the question's answer, `correctAnswers` grows by 1
and the score by at least 10; otherwise both are unchanged. -/
theorem submit_answer_counters (sess : GameSession) (raw : RawAnswer)
    (now now2 : ℚ) (c s1 s2 : Nat) (q : GenQuestion) (st : DifficultySetting)
    (hact : sess.game_active = true)
    (hq : sess.current_question = some q)
    (hst : DIFFICULTY_SETTINGS sess.difficulty = some st) :
    ((submit_answer sess raw now now2 c s1 s2).2.total_questions =
        sess.total_questions + 1) ∧
    (answerMatches (parseAnswer raw) q.answer = true →
        (submit_answer sess raw now now2 c s1 s2).2.correct_answers =
            sess.correct_answers + 1 ∧
          sess.score + 10 ≤ (submit_answer sess raw now now2 c s1 s2).2.score) ∧
    (answerMatches (parseAnswer raw) q.answer = false →
        (submit_answer sess raw now now2 c s1 s2).2.correct_answers =
            sess.correct_answers ∧
          (submit_answer sess raw now now2 c s1 s2).2.score = sess.score) := by
  rw [submit_answer_active_eq sess raw now now2 c s1 s2 q st hact hq hst]
  refine ⟨rfl, fun hm => ?_, fun hm => ?_⟩
  · simp only [hm, if_true, true_and]
    have hb : (1 : Int) ≤ max 1 (pyInt (10 - (now - sess.question_start_time))) :=
      le_max_left _ _
    split_ifs <;> omega
  · simp [hm]

/-- A concrete pending question for witnesses: the easy-tier addition
`1 + 1`. -/
def qW : GenQuestion := ⟨Op.add, 1, 1, "1 + 1", 2, 30⟩

/-- A concrete active easy-tier session holding `qW`, with all counters
zero and both timestamps at `0`. -/
def sessW : GameSession := ⟨true, "easy", 0, 0, 0, 0, some qW, 0⟩

/-- C4 witness: submitting the correct answer `2` to `sessW` one second
in bumps `totalQuestions` to 1, `correctAnswers` to 1 and the score by
at least 10. -/
theorem submit_answer_counters_witness :
    ((submit_answer sessW (RawAnswer.jint 2) 1 2 0 0 0).2.total_questions =
        sessW.total_questions + 1) ∧
    (answerMatches (parseAnswer (RawAnswer.jint 2)) qW.answer = true →
        (submit_answer sessW (RawAnswer.jint 2) 1 2 0 0 0).2.correct_answers =
            sessW.correct_answers + 1 ∧
          sessW.score + 10 ≤
            (submit_answer sessW (RawAnswer.jint 2) 1 2 0 0 0).2.score) ∧
    (answerMatches (parseAnswer (RawAnswer.jint 2)) qW.answer = false →
        (submit_answer sessW (RawAnswer.jint 2) 1 2 0 0 0).2.correct_answers =
            sessW.correct_answers ∧
          (submit_answer sessW (RawAnswer.jint 2) 1 2 0 0 0).2.score = sessW.score) :=
  submit_answer_counters sessW (RawAnswer.jint 2) 1 2 0 0 0 qW
    ⟨10, [Op.add, Op.sub], 30⟩ rfl rfl rfl

/-- C5: on a correct submission the time bonus
`max(1, floor(10 - elapsed))` is added exactly when the elapsed time is
strictly below `timeLimit / 2` (so no bonus at exactly `timeLimit / 2`),
and an incorrect submission never changes the score. -/
theorem submit_answer_time_bonus (sess : GameSession) (raw : RawAnswer)
    (now now2 : ℚ) (c s1 s2 : Nat) (q : GenQuestion) (st : DifficultySetting)
    (hact : sess.game_active = true)
    (hq : sess.current_question = some q)
    (hst : DIFFICULTY_SETTINGS sess.difficulty = some st) :
    (answerMatches (parseAnswer raw) q.answer = true →
        (submit_answer sess raw now now2 c s1 s2).2.score =
          sess.score + 10 +
            (if now - sess.question_start_time < (q.time_limit : ℚ) / 2 then
               max 1 ⌊(10 : ℚ) - (now - sess.question_start_time)⌋ else 0)) ∧
    (answerMatches (parseAnswer raw) q.answer = false →
        (submit_answer sess raw now now2 c s1 s2).2.score = sess.score) := by
  rw [submit_answer_active_eq sess raw now now2 c s1 s2 q st hact hq hst]
  constructor
  · intro hm
    simp only [hm, if_true, true_and]
    split_ifs with ht
    · rw [max_one_pyInt]
    · omega
  · intro hm
    simp [hm]

/-- C5 witness: at elapsed time `1 < 30 / 2` the correct submission to
`sessW` scores `0 + 10 + max(1, floor(10 - 1))`. -/
theorem submit_answer_time_bonus_witness :
    (answerMatches (parseAnswer (RawAnswer.jint 2)) qW.answer = true →
        (submit_answer sessW (RawAnswer.jint 2) 1 2 0 0 0).2.score =
          sessW.score + 10 +
            (if (1 : ℚ) - sessW.question_start_time < (qW.time_limit : ℚ) / 2 then
               max 1 ⌊(10 : ℚ) - ((1 : ℚ) - sessW.question_start_time)⌋ else 0)) ∧
    (answerMatches (parseAnswer (RawAnswer.jint 2)) qW.answer = false →
        (submit_answer sessW (RawAnswer.jint 2) 1 2 0 0 0).2.score = sessW.score) :=
  submit_answer_time_bonus sessW (RawAnswer.jint 2) 1 2 0 0 0 qW
    ⟨10, [Op.add, Op.sub], 30⟩ rfl rfl rfl

/-- C6: a raw answer that does not parse as an integer is coerced to the
`None` sentinel, which equals no integer, so the submission is scored
incorrect rather than raising. -/
theorem submit_answer_unparseable (sess : GameSession) (raw : RawAnswer)
    (now now2 : ℚ) (c s1 s2 : Nat) (q : GenQuestion) (st : DifficultySetting)
    (hact : sess.game_active = true)
    (hq : sess.current_question = some q)
    (hst : DIFFICULTY_SETTINGS sess.difficulty = some st)
    (hraw : parseAnswer raw = none) :
    Except.map SubmitResult.is_correct (submit_answer sess raw now now2 c s1 s2).1 =
      Except.ok false := by
  rw [submit_answer_active_eq sess raw now now2 c s1 s2 q st hact hq hst]
  simp [hraw, answerMatches, Except.map]

/-- C6 witness: the unparseable payload `"abc"` submitted to `sessW` is
scored incorrect. -/
theorem submit_answer_unparseable_witness :
    Except.map SubmitResult.is_correct
        (submit_answer sessW (RawAnswer.jstr "abc") 1 2 0 0 0).1 =
      Except.ok false :=
  submit_answer_unparseable sessW (RawAnswer.jstr "abc") 1 2 0 0 0 qW
    ⟨10, [Op.add, Op.sub], 30⟩ rfl rfl rfl (by decide)

/- ### Lifecycle claims -/

/-- C7: `generate_question` is total on the three tier identifiers and
fails with the invalid-difficulty condition on every other input. -/
theorem generate_question_totality (d : String) (c s1 s2 : Nat) :
    ((d = "easy" ∨ d = "medium" ∨ d = "hard") →
        (generate_question d c s1 s2).isOk = true) ∧
    (d ≠ "easy" → d ≠ "medium" → d ≠ "hard" →
        generate_question d c s1 s2 = Except.error GameError.invalidDifficulty) := by
  constructor
  · rintro (rfl | rfl | rfl) <;> rfl
  · intro h1 h2 h3
    unfold generate_question DIFFICULTY_SETTINGS
    rw [if_neg h1, if_neg h2, if_neg h3]

/-- C7 witness: generation succeeds at `"easy"` and fails with the
invalid-difficulty error at `"expert"`. -/
theorem generate_question_totality_witness :
    (generate_question "easy" 0 0 0).isOk = true ∧
      generate_question "expert" 0 0 0 = Except.error GameError.invalidDifficulty :=
  ⟨(generate_question_totality "easy" 0 0 0).1 (Or.inl rfl),
   (generate_question_totality "expert" 0 0 0).2 (by decide) (by decide) (by decide)⟩

/-- C8: against an inactive session, both `submit_answer` and `end_game`
return the structured no-active-game failure and leave the session
(score, counters, current question and all) exactly as it was. -/
theorem inactive_requests_rejected (sess : GameSession) (raw : RawAnswer)
    (now now2 : ℚ) (c s1 s2 : Nat) (h : sess.game_active = false) :
    submit_answer sess raw now now2 c s1 s2 =
        (Except.error GameError.noActiveGame, sess) ∧
      end_game sess now = (Except.error GameError.noActiveGame, sess) := by
  constructor
  · unfold submit_answer
    rw [h]
    simp
  · unfold end_game
    rw [h]
    simp

/-- A concrete inactive session with non-zero historical counters, for
the C8 witness. -/
def sessI : GameSession := ⟨false, "medium", 35, 4, 3, 0, none, 7⟩

/-- C8 witness: on the inactive `sessI`, both handlers return the
no-active-game failure with `sessI` untouched. -/
theorem inactive_requests_rejected_witness :
    submit_answer sessI (RawAnswer.jint 1) 8 9 0 0 0 =
        (Except.error GameError.noActiveGame, sessI) ∧
      end_game sessI 8 = (Except.error GameError.noActiveGame, sessI) :=
  inactive_requests_rejected sessI (RawAnswer.jint 1) 8 9 0 0 0 rfl

/-- C9: a successful `end_game` only flips `game_active` to `false`:
score, counters, difficulty, current question and both timestamps are
left in the session unchanged. -/
theorem end_game_flips_only_active (sess : GameSession) (now : ℚ)
    (h : sess.game_active = true) :
    ((end_game sess now).1).isOk = true ∧
    (end_game sess now).2.game_active = false ∧
    (end_game sess now).2.score = sess.score ∧
    (end_game sess now).2.total_questions = sess.total_questions ∧
    (end_game sess now).2.correct_answers = sess.correct_answers ∧
    (end_game sess now).2.difficulty = sess.difficulty ∧
    (end_game sess now).2.current_question = sess.current_question ∧
    (end_game sess now).2.start_time = sess.start_time ∧
    (end_game sess now).2.question_start_time = sess.question_start_time := by
  unfold end_game
  rw [h]
  simp
  rfl

/-- C9 witness: ending the active `sessW` flips only its active flag. -/
theorem end_game_flips_only_active_witness :
    ((end_game sessW 5).1).isOk = true ∧
    (end_game sessW 5).2.game_active = false ∧
    (end_game sessW 5).2.score = sessW.score ∧
    (end_game sessW 5).2.total_questions = sessW.total_questions ∧
    (end_game sessW 5).2.correct_answers = sessW.correct_answers ∧
    (end_game sessW 5).2.difficulty = sessW.difficulty ∧
    (end_game sessW 5).2.current_question = sessW.current_question ∧
    (end_game sessW 5).2.start_time = sessW.start_time ∧
    (end_game sessW 5).2.question_start_time = sessW.question_start_time :=
  end_game_flips_only_active sessW 5 rfl

/-- C10: a start-game payload with no difficulty field defaults to the
easy tier: the request succeeds and the new session is an active
easy-tier game. -/
theorem start_game_default_easy (sess : GameSession) (now : ℚ) (c s1 s2 : Nat) :
    ((start_game sess none now c s1 s2).1).isOk = true ∧
    (start_game sess none now c s1 s2).2.game_active = true ∧
    (start_game sess none now c s1 s2).2.difficulty = "easy" ∧
    (start_game sess none now c s1 s2).2.score = 0 ∧
    (start_game sess none now c s1 s2).2.total_questions = 0 ∧
    (start_game sess none now c s1 s2).2.correct_answers = 0 := by
  unfold start_game generate_question DIFFICULTY_SETTINGS
  simp
  rfl
